import Mathlib

set_option linter.unusedVariables false

/-!
Shallow embedding of the RVI library prototype (src/src/rvi.c) and proofs
about its connection/service registry.

Scope of the embedding:
* The three indexes held by rvi_context_t (remote connections by fd,
  services by name, services by registrant) and the operations of rvi.c
  that touch them: rvi_service_create, rvi_remote_create, rvi_connect,
  rvi_disconnect, and the placeholder bodies of rvi_register_service,
  rvi_unregister_service, rvi_invoke_remote_service and rvi_process_input.
* OpenSSL objects (BIO chains, SSL sessions) are external collaborators:
  they are represented by opaque numeric handles, and the transport
  branches of rvi_connect that fail before any registry mutation are
  outside the model.
* C pointers that may be NULL are represented by Option; a C int is
  represented by Int (file descriptors and return codes are small, so
  machine-width overflow is immaterial here).
-/

namespace RviLib

/-- Return code RVI_OK. The header rvi.h is not under src, but the rvi.c
doc comments state that 0 is RVI_OK and that failures are reported as
nonzero (for rvi_connect, negative) codes. -/
def RVI_OK : Int := 0

/-- Opaque handle standing for a C function pointer of type rvi_callback_t. -/
abbrev Callback := Nat

/-- embedding of struct rvi_service_t (rvi.c lines 96-107). The C fields
may_register and may_invoke are int arrays whose NULL value denotes the
empty set; name is a char pointer that may be NULL (the probe key built in
rvi_disconnect has a NULL name); callback may be NULL. -/
structure Service where
  name : Option String
  may_register : List Int
  may_invoke : List Int
  registrant : Int
  callback : Option Callback
deriving DecidableEq, Repr

/-- embedding of struct rvi_remote_t (rvi.c lines 82-93). The fields
right_to_register, right_to_invoke and buf are pointers that rvi.c never
populates (they stay NULL from memset until rvi_remote_destroy frees
them), so they are modelled as opaque optional handles; sbio is the
opaque handle of the OpenSSL BIO chain. -/
structure Remote where
  fd : Int
  right_to_register : Option Nat
  right_to_invoke : Option Nat
  buf : Option Nat
  sbio : Nat
deriving DecidableEq, Repr

/-- embedding of the registry part of struct rvi_context_t (rvi.c lines
42-79): the three b-trees remote_idx, service_name_idx and
service_reg_idx. The configuration, credential and SSL-context fields are
never consulted by the registry operations and are omitted. -/
structure RviContext where
  remote_idx : List Remote
  service_name_idx : List Service
  service_reg_idx : List Service
deriving DecidableEq, Repr

/-- embedding of the sign of strcmp on non-NULL strings: negative, zero or
positive according to the order of the arguments. Only the sign of strcmp
is ever used by rvi.c. -/
def strcmpInt (a b : String) : Int :=
  if a = b then 0 else if a < b then -1 else 1

/-- embedding of compare_fd (rvi.c lines 143-149): compares two remotes by
file descriptor. -/
def compare_fd (a b : Remote) : Int :=
  a.fd - b.fd

/-- embedding of compare_registrant (rvi.c lines 157-169): compares two
services by registrant; when the registrants are equal and both names are
non-NULL, the names break the tie. A probe key with a NULL name therefore
compares equal to every service with the sought registrant. -/
def compare_registrant (a b : Service) : Int :=
  let r := a.registrant - b.registrant
  if r = 0 then
    match a.name, b.name with
    | some na, some nb => strcmpInt na nb
    | _, _ => r
  else r

/-- embedding of compare_name (rvi.c lines 175-181): compares two services
by name with strcmp. The C code calls strcmp unconditionally and so
requires non-NULL names; every record placed in the name index has one
(rvi_service_create always copies a non-NULL name), so the extension to
NULL names chosen here (NULL sorts first) is immaterial. -/
def compare_name (a b : Service) : Int :=
  match a.name, b.name with
  | some na, some nb => strcmpInt na nb
  | none, none => 0
  | none, some _ => -1
  | some _, none => 1

/-- Modelled from the spec: btree.c is part of this repository but is not
under src, so the b-trees are modelled as the ordered indexes the spec
describes (sections 2 and 4.2-4.3), driven by the comparison functions of
rvi.c. btree_search returns the record that compares equal to the probe
key, if any. -/
def btree_search {α : Type} (cmp : α → α → Int) (key : α) : List α → Option α
  | [] => none
  | x :: xs => if cmp key x = 0 then some x else btree_search cmp key xs

/-- Ordered placement of a record that compares equal to no existing one:
it goes in front of the first record that it precedes. -/
def btree_insert_pos {α : Type} (cmp : α → α → Int) : List α → α → List α
  | [], x => [x]
  | y :: ys, x => if cmp x y < 0 then x :: y :: ys else y :: btree_insert_pos cmp ys x

/-- Modelled from the spec: btree_insert on a key-unique index fails,
leaving the index unchanged, when a record comparing equal to the new one
already exists (spec section 4.2 has insert fail with DuplicateConnection
when the identifier already exists, and sections 2-3 make the key unique
across the index); otherwise the record is placed at its ordered
position. The one caller in rvi.c, rvi_connect, ignores the returned
status, so only the resulting index is modelled. -/
def btree_insert {α : Type} (cmp : α → α → Int) (l : List α) (x : α) : List α :=
  if l.any (fun y => cmp x y = 0) then l else btree_insert_pos cmp l x

/-- Modelled from the spec: btree_delete removes the first record that
compares equal to the given one; deleting a record that is present always
succeeds. -/
def btree_delete {α : Type} (cmp : α → α → Int) (key : α) : List α → List α
  | [] => []
  | x :: xs => if cmp key x = 0 then xs else x :: btree_delete cmp key xs

/-- embedding of rvi_service_create (rvi.c lines 191-216): returns NULL
when the name is NULL or the registrant is negative; otherwise returns a
zero-initialized service carrying a copy of the name, the registrant and
the callback, with empty may_register and may_invoke (the C arrays stay
NULL). The unchecked malloc of the C code is outside the model. -/
def rvi_service_create (name : Option String) (registrant : Int)
    (callback : Option Callback) : Option Service :=
  match name with
  | none => none
  | some n =>
    if registrant < 0 then none
    else some { name := some n, may_register := [], may_invoke := [],
                registrant := registrant, callback := callback }

/-- embedding of rvi_remote_create (rvi.c lines 243-265): returns NULL
when the BIO chain is NULL or the fd is negative; otherwise returns a
zero-initialized remote carrying the fd and the BIO chain, with NULL
right_to_register, right_to_invoke and buf. -/
def rvi_remote_create (sbio : Option Nat) (fd : Int) : Option Remote :=
  match sbio with
  | none => none
  | some b =>
    if fd < 0 then none
    else some { fd := fd, right_to_register := none, right_to_invoke := none,
                buf := none, sbio := b }

/-- Probe key built by rvi_disconnect (rvi.c lines 785, 791): a
zero-initialized rvi_remote_t whose fd is set to the sought one. -/
def remote_key (fd : Int) : Remote :=
  { fd := fd, right_to_register := none, right_to_invoke := none,
    buf := none, sbio := 0 }

/-- Probe key built by rvi_disconnect (rvi.c lines 787, 808): a
zero-initialized rvi_service_t (NULL name) whose registrant is set to the
sought fd. -/
def service_reg_key (fd : Int) : Service :=
  { name := none, may_register := [], may_invoke := [],
    registrant := fd, callback := none }

/-- embedding of the while loop of rvi_disconnect (rvi.c lines 809-818):
repeatedly search service_reg_idx with the NULL-name probe key for the
given fd and delete the record found (the record itself is then freed by
rvi_service_destroy, which is memory management outside the model). Each
pass removes one record, so the loop runs at most as many times as the
index has records; the fuel argument makes that bound explicit. -/
def purge_registrant_aux (fd : Int) : Nat → List Service → List Service
  | 0, l => l
  | fuel + 1, l =>
    match btree_search compare_registrant (service_reg_key fd) l with
    | none => l
    | some s => purge_registrant_aux fd fuel (btree_delete compare_registrant s l)

/-- The service_reg_idx purge of rvi_disconnect, run with enough fuel for
the whole index. -/
def purge_registrant (fd : Int) (l : List Service) : List Service :=
  purge_registrant_aux fd l.length l

/-- embedding of rvi_disconnect (rvi.c lines 782-826): look up the remote
by fd; if absent, return -1 leaving the context untouched. Otherwise
delete the remote from remote_idx, free its BIO chain (outside the model),
and purge every service with that registrant from service_reg_idx. The C
code never touches service_name_idx on this path. The C branch for a
failed btree_delete of a record just found cannot arise in the list
model. -/
def rvi_disconnect (ctx : RviContext) (fd : Int) : RviContext × Int :=
  match btree_search compare_fd (remote_key fd) ctx.remote_idx with
  | none => (ctx, -1)
  | some rtmp =>
    ({ ctx with
        remote_idx := btree_delete compare_fd rtmp ctx.remote_idx,
        service_reg_idx := purge_registrant fd ctx.service_reg_idx }, RVI_OK)

/-- embedding of rvi_connect (rvi.c lines 654-772) with the transport
externalized: the BIO chain produced by the SSL handshake and the socket
fd assigned by the operating system are parameters, and the failure
branches that return before any registry mutation (bad arguments, BIO or
SSL setup failure, connect or handshake failure) are outside the model.
After the handshake the code builds a remote with rvi_remote_create,
inserts it into remote_idx without any duplicate check and without
consulting the insert result, exchanges the au messages (no registry
effect in this prototype), and returns the fd of the remote. The none
result marks the path where rvi_remote_create returns NULL and the C code
would dereference a NULL pointer (impossible for a connected socket, whose
fd is nonnegative). -/
def rvi_connect (ctx : RviContext) (sbio : Nat) (fd : Int) :
    Option (RviContext × Int) :=
  match rvi_remote_create (some sbio) fd with
  | none => none
  | some remote =>
    some ({ ctx with remote_idx := btree_insert compare_fd ctx.remote_idx remote },
          remote.fd)

/-- embedding of rvi_register_service (rvi.c lines 865-884): the body is a
placeholder that prints a message and returns 0; it performs no registry
operation whatever. The intended algorithm exists only as comments. -/
def rvi_register_service (ctx : RviContext) (service_name : Option String)
    (callback : Option Callback) (service_data : Option Nat) : RviContext × Int :=
  (ctx, 0)

/-- embedding of rvi_unregister_service (rvi.c lines 894-906): the body is
a placeholder that prints a message and returns 0; it performs no registry
operation whatever. -/
def rvi_unregister_service (ctx : RviContext) (service_name : Option String) :
    RviContext × Int :=
  (ctx, 0)

/-- embedding of rvi_invoke_remote_service (rvi.c lines 943-953): the body
is a placeholder that prints a message and returns 0; it performs no
lookup, no authorization check, no callback invocation and no registry
operation. -/
def rvi_invoke_remote_service (ctx : RviContext) (service_name : Option String)
    (parameters : Option Nat) : RviContext × Int :=
  (ctx, 0)

/-- Wire messages of the protocol, after the spec (section 6): an
authenticate message carrying credentials, a service-announce message
carrying (name, status) pairs, and an invoke message. rvi.c never parses
these; the type only serves to state what input is pending on a
connection. -/
inductive Message where
  | authenticate (credentials : List String)
  | serviceAnnounce (services : List (String × String))
  | invoke (service : String) (parameters : Nat)
deriving DecidableEq, Repr

/-- embedding of rvi_process_input (rvi.c lines 959-982): the body is a
placeholder that prints a message and returns 0. The network input that
would be read from each ready descriptor is externalized as a function
from fd to pending messages; the C code never reads it and never mutates
the registry. -/
def rvi_process_input (ctx : RviContext) (input : Int → List Message)
    (fd_arr : List Int) (fd_len : Int) : RviContext × Int :=
  (ctx, 0)

/-- Modelled from the spec: the Pattern Authorization Matcher of spec
section 4.1 has no implementation in rvi.c — the regex fields
right_to_register and right_to_invoke of rvi_remote_t (rvi.c lines 82-93)
are declared but never populated or consulted. Following the spec, a
pattern is a glob over the fully-qualified service name in which a star
matches any run of characters, spanning dot-separated segment boundaries,
and every other character matches only itself. Matching is anchored: the
whole pattern must consume the whole name. -/
def glob_match : List Char → List Char → Bool
  | [], s => s.isEmpty
  | '*' :: ps, s => (List.range (s.length + 1)).any (fun k => glob_match ps (s.drop k))
  | c :: ps, [] => false
  | c :: ps, d :: ds => c == d && glob_match ps ds

/-- Modelled from the spec: one pattern evaluated against one full service
name. -/
def pattern_matches (p n : String) : Bool :=
  glob_match p.toList n.toList

/-- Modelled from the spec: the matcher of spec section 4.1 is true iff
some pattern of the set matches the full name. -/
def rvi_matches (patterns : List String) (name : String) : Bool :=
  patterns.any (fun p => pattern_matches p name)

/-!
Helper lemmas.
-/

/-- A star-free pattern is anchored exactly: it matches precisely the list
equal to it. -/
theorem glob_match_no_star (p : List Char) (h : ∀ c ∈ p, c ≠ '*') :
    ∀ s, glob_match p s = true ↔ p = s := by
  induction p with
  | nil =>
    intro s
    cases s <;> simp [glob_match]
  | cons c ps ih =>
    intro s
    have hc : c ≠ '*' := h c (by simp)
    have hps : ∀ x ∈ ps, x ≠ '*' := fun x hx => h x (by simp [hx])
    cases s with
    | nil =>
      rw [glob_match.eq_def]
      split
      · simp_all
      · simp_all
      · simp
      · simp_all
    | cons d ds =>
      rw [glob_match.eq_def]
      split
      · simp_all
      · simp_all
      · simp_all
      · rename_i c' ps' d' ds' heq1 heq2
        injection heq1 with h1 h2
        injection heq2 with h3 h4
        subst h1; subst h2; subst h3; subst h4
        rw [Bool.and_eq_true, beq_iff_eq, ih hps ds]
        constructor
        · rintro ⟨rfl, rfl⟩; rfl
        · intro hcd; injection hcd with e1 e2; exact ⟨e1, e2⟩

/-- Searching the remote index for a file descriptor carried by none of
its records finds nothing. -/
theorem btree_search_fd_none (fd : Int) (l : List Remote)
    (h : ∀ r ∈ l, r.fd ≠ fd) :
    btree_search compare_fd (remote_key fd) l = none := by
  induction l with
  | nil => rfl
  | cons x xs ih =>
    have hx : x.fd ≠ fd := h x (by simp)
    have hne : ¬ compare_fd (remote_key fd) x = 0 := by
      simp only [compare_fd, remote_key]
      omega
    simp only [btree_search, if_neg hne]
    exact ih fun r hr => h r (by simp [hr])

/-- Inserting a record that compares equal to an existing one leaves the
index unchanged. -/
theorem btree_insert_duplicate {α : Type} (cmp : α → α → Int) (l : List α) (x : α)
    (h : ∃ y ∈ l, cmp x y = 0) : btree_insert cmp l x = l := by
  rcases h with ⟨y, hy, hcmp⟩
  unfold btree_insert
  rw [if_pos (List.any_eq_true.mpr ⟨y, hy, by simp [hcmp]⟩)]

/-!
The claims.
-/

/-- C1: the claim states that every sequence of register, unregister and
disconnect operations keeps the service name index and the service
registrant index holding the same set of live services. The code violates
it: rvi_disconnect deletes the services of the disconnected registrant
from service_reg_idx only (rvi.c lines 809-818) and never touches
service_name_idx, so from a context holding one service in both indexes,
disconnecting its registrant leaves the name index still holding the
record (now freed by rvi_service_destroy) while the registrant index is
empty. -/
theorem disconnect_violates_dual_index_consistency :
    let s : Service := { name := some "a.b", may_register := [], may_invoke := [],
                         registrant := 3, callback := none }
    let r : Remote := { fd := 3, right_to_register := none, right_to_invoke := none,
                        buf := none, sbio := 1 }
    let ctx : RviContext := { remote_idx := [r], service_name_idx := [s],
                              service_reg_idx := [s] }
    (rvi_disconnect ctx 3).1.service_name_idx = [s] ∧
    (rvi_disconnect ctx 3).1.service_reg_idx = [] := by
  exact ⟨rfl, rfl⟩

/-- C2: the claim states that disconnecting a registered connection
removes its services from both indexes, so that afterwards a lookup by
registrant returns nothing and a lookup by name finds none of its
services. The code violates the second half: after rvi_disconnect the
connection entry is gone and the registrant lookup is empty, but the name
lookup still finds the service of the disconnected registrant, because
rvi.c lines 809-818 delete only from service_reg_idx. -/
theorem disconnect_leaves_stale_name_index_entry :
    let s : Service := { name := some "a.b", may_register := [], may_invoke := [],
                         registrant := 3, callback := none }
    let r : Remote := { fd := 3, right_to_register := none, right_to_invoke := none,
                        buf := none, sbio := 1 }
    let ctx : RviContext := { remote_idx := [r], service_name_idx := [s],
                              service_reg_idx := [s] }
    let ctx2 := (rvi_disconnect ctx 3).1
    btree_search compare_fd (remote_key 3) ctx2.remote_idx = none ∧
    btree_search compare_registrant (service_reg_key 3) ctx2.service_reg_idx = none ∧
    btree_search compare_name
      { name := some "a.b", may_register := [], may_invoke := [],
        registrant := 0, callback := none } ctx2.service_name_idx = some s := by
  exact ⟨rfl, rfl, rfl⟩

/-- C3: the claim states that registering a name already present fails
with DuplicateService and leaves the existing record unchanged. The code
violates the error half: rvi_register_service is a placeholder (rvi.c
lines 865-884) that returns 0, which the rvi.c doc comments reserve for
success (RVI_OK), for every input — here evaluated on a context already
holding a service named a.b. It registers nothing, so records are indeed
never overwritten, but no DuplicateService failure exists in the code. -/
theorem register_service_placeholder_returns_ok :
    let s : Service := { name := some "a.b", may_register := [], may_invoke := [],
                         registrant := 0, callback := some 5 }
    let ctx : RviContext := { remote_idx := [], service_name_idx := [s],
                              service_reg_idx := [s] }
    rvi_register_service ctx (some "a.b") (some 9) none = (ctx, RVI_OK) := by
  exact rfl

/-- C5: the claim states that invoking a service whose may_invoke set
excludes the invoker returns Unauthorized, calls no callback and mutates
no registry. The code violates the error half: rvi_invoke_remote_service
is a placeholder (rvi.c lines 943-953) that performs no authorization
check and returns 0 (RVI_OK) — here evaluated on a context whose only
service has an empty may_invoke set, so no invoker whatever is
authorized. It does leave the registries unchanged and calls nothing. -/
theorem invoke_remote_service_placeholder_returns_ok :
    let s : Service := { name := some "x.y", may_register := [], may_invoke := [],
                         registrant := 3, callback := none }
    let rr : Remote := { fd := 3, right_to_register := none, right_to_invoke := none,
                         buf := none, sbio := 1 }
    let ctx : RviContext := { remote_idx := [rr], service_name_idx := [s],
                              service_reg_idx := [s] }
    rvi_invoke_remote_service ctx (some "x.y") none = (ctx, RVI_OK) := by
  exact rfl

/-- C4 counterexample: connecting while the sought identifier 3 is
already in the connection registry does not fail with
DuplicateConnection — rvi_connect returns 3, a nonnegative value that its
doc comment reserves for success, so the conflict is never reported to
the caller (the index itself, modelled per the spec as key-unique,
rejects the duplicate record silently). -/
theorem connect_duplicate_identifier_not_rejected :
    rvi_connect
      { remote_idx := [{ fd := 3, right_to_register := none, right_to_invoke := none,
                         buf := none, sbio := 1 }],
        service_name_idx := [], service_reg_idx := [] } 7 3 =
      some ({ remote_idx := [{ fd := 3, right_to_register := none, right_to_invoke := none,
                               buf := none, sbio := 1 }],
              service_name_idx := [], service_reg_idx := [] }, 3) := by
  exact rfl

/-- C4 amended: inserting a new connection under an identifier already
present does not fail with DuplicateConnection — rvi_connect performs no
duplicate check of its own, ignores the b-tree insert status, and returns
the identifier as a success for every context holding that identifier;
the registry is left exactly unchanged (the spec-modelled key-unique
index rejects the duplicate record), so no second live entry arises, but
the failure the claim requires never reaches the caller. -/
theorem rvi_connect_duplicate_not_reported (ctx : RviContext) (sbio : Nat) (fd : Int)
    (h : 0 ≤ fd) (hdup : ∃ r ∈ ctx.remote_idx, r.fd = fd) :
    rvi_connect ctx sbio fd = some (ctx, fd) := by
  have hins : btree_insert compare_fd ctx.remote_idx
      { fd := fd, right_to_register := none, right_to_invoke := none,
        buf := none, sbio := sbio } = ctx.remote_idx := by
    rcases hdup with ⟨r, hr, hfd⟩
    exact btree_insert_duplicate _ _ _ ⟨r, hr, by simp [compare_fd, hfd]⟩
  simp [rvi_connect, rvi_remote_create, not_lt.mpr h, hins]

/-- Witness for the amended C4 theorem at a concrete duplicate: a
registry holding fds 2 and 3, with the connect assigned fd 3 again. -/
theorem rvi_connect_duplicate_not_reported_witness :
    rvi_connect { remote_idx := [{ fd := 2, right_to_register := none, right_to_invoke := none, buf := none, sbio := 1 }, { fd := 3, right_to_register := none, right_to_invoke := none, buf := none, sbio := 4 }], service_name_idx := [], service_reg_idx := [] } 9 3 =
      some ({ remote_idx := [{ fd := 2, right_to_register := none, right_to_invoke := none, buf := none, sbio := 1 }, { fd := 3, right_to_register := none, right_to_invoke := none, buf := none, sbio := 4 }], service_name_idx := [], service_reg_idx := [] }, 3) :=
  rvi_connect_duplicate_not_reported _ 9 3 (by decide)
    ⟨{ fd := 3, right_to_register := none, right_to_invoke := none, buf := none, sbio := 4 },
     by simp, rfl⟩

/-- C6: the matcher is anchored over the whole service name — it is true
iff some pattern of the set matches the full name; the literal pattern
a.b matches the name a.b but neither a.b.c nor a.bx, while the wildcard
pattern a.star spans those segments and matches both; and in general a
star-free pattern matches exactly the name equal to it. -/
theorem pattern_matching_anchored :
    (∀ (ps : List String) (n : String),
        rvi_matches ps n = true ↔ ∃ p ∈ ps, pattern_matches p n = true) ∧
    pattern_matches "a.b" "a.b" = true ∧
    pattern_matches "a.b" "a.b.c" = false ∧
    pattern_matches "a.b" "a.bx" = false ∧
    pattern_matches "a.*" "a.b.c" = true ∧
    pattern_matches "a.*" "a.bx" = true ∧
    (∀ p n : String, (∀ c ∈ p.toList, c ≠ '*') →
        (pattern_matches p n = true ↔ p = n)) := by
  refine ⟨fun ps n => ?_, by decide, by decide, by decide, by decide, by decide,
          fun p n hp => ?_⟩
  · simp [rvi_matches, List.any_eq_true]
  · rw [pattern_matches, glob_match_no_star p.toList hp n.toList]
    constructor
    · intro h2
      exact String.ext h2
    · rintro rfl
      rfl

/-- Witness for C6 at concrete inputs, discharging the star-free
hypothesis for the pattern a.b. -/
theorem pattern_matching_anchored_witness :
    (rvi_matches ["a.b"] "a.b" = true ↔ ∃ p ∈ ["a.b"], pattern_matches p "a.b" = true) ∧
    (pattern_matches "a.b" "a.bx" = true ↔ "a.b" = "a.bx") :=
  ⟨pattern_matching_anchored.1 ["a.b"] "a.b",
   pattern_matching_anchored.2.2.2.2.2.2 "a.b" "a.bx" (by decide)⟩

/-- C7: processing a service announce and then a withdrawal of the same
name by the same registrant returns the service registry to exactly its
state before the announce. This holds vacuously: rvi_process_input is an
unimplemented placeholder (rvi.c lines 959-982) that never reads the
pending input and never mutates the registry, so both steps are
identities on the context. -/
theorem announce_withdraw_roundtrip (ctx : RviContext) (fd : Int) (name : String) :
    (rvi_process_input
        (rvi_process_input ctx
          (fun _ => [Message.serviceAnnounce [(name, "available")]]) [fd] 1).1
        (fun _ => [Message.serviceAnnounce [(name, "unavailable")]]) [fd] 1).1 = ctx :=
  rfl

/-- C8: rvi_service_create returns NULL exactly when the name is NULL or
the registrant is negative; on any other input it returns a service whose
name is a copy of the given name, whose registrant and callback equal the
given arguments, and whose may_register and may_invoke sets are empty. -/
theorem rvi_service_create_spec (n : String) (reg : Int) (cb : Option Callback) :
    (∀ r : Int, rvi_service_create none r cb = none) ∧
    (reg < 0 → rvi_service_create (some n) reg cb = none) ∧
    (0 ≤ reg → rvi_service_create (some n) reg cb =
      some { name := some n, may_register := [], may_invoke := [],
             registrant := reg, callback := cb }) := by
  refine ⟨fun r => rfl, fun h => ?_, fun h => ?_⟩
  · simp [rvi_service_create, h]
  · simp [rvi_service_create, not_lt.mpr h]

/-- Witness for C8 at concrete inputs. -/
theorem rvi_service_create_spec_witness :
    rvi_service_create none 5 none = none ∧
    rvi_service_create (some "x") (-1) none = none ∧
    rvi_service_create (some "x") 7 none =
      some { name := some "x", may_register := [], may_invoke := [],
             registrant := 7, callback := none } :=
  ⟨(rvi_service_create_spec "x" (-1) none).1 5,
   (rvi_service_create_spec "x" (-1) none).2.1 (by decide),
   (rvi_service_create_spec "x" 7 none).2.2 (by decide)⟩

/-- C9: for a file descriptor carried by no record of the connection
registry, rvi_disconnect returns -1 and leaves the whole context — the
connection registry and both service indexes — exactly unchanged. -/
theorem rvi_disconnect_unknown_connection (ctx : RviContext) (fd : Int)
    (h : ∀ r ∈ ctx.remote_idx, r.fd ≠ fd) :
    rvi_disconnect ctx fd = (ctx, -1) := by
  unfold rvi_disconnect
  rw [btree_search_fd_none fd ctx.remote_idx h]

/-- Witness for C9: disconnecting fd 3 from a registry holding only fd 4
fails and changes nothing. -/
theorem rvi_disconnect_unknown_connection_witness :
    rvi_disconnect
      { remote_idx := [{ fd := 4, right_to_register := none, right_to_invoke := none,
                         buf := none, sbio := 1 }],
        service_name_idx := [], service_reg_idx := [] } 3 =
      ({ remote_idx := [{ fd := 4, right_to_register := none, right_to_invoke := none,
                          buf := none, sbio := 1 }],
         service_name_idx := [], service_reg_idx := [] }, -1) :=
  rvi_disconnect_unknown_connection _ 3 (by decide)

/-- C10: rvi_remote_create returns NULL exactly when the BIO chain is
NULL or the file descriptor is negative; otherwise it returns a remote
whose fd and BIO chain equal the given arguments and whose
right_to_register, right_to_invoke and partial-read buffer are all empty,
so a freshly created connection holds no granted rights. -/
theorem rvi_remote_create_spec (b : Nat) (fd : Int) :
    (∀ f : Int, rvi_remote_create none f = none) ∧
    (fd < 0 → rvi_remote_create (some b) fd = none) ∧
    (0 ≤ fd → rvi_remote_create (some b) fd =
      some { fd := fd, right_to_register := none, right_to_invoke := none,
             buf := none, sbio := b }) := by
  refine ⟨fun f => rfl, fun h => ?_, fun h => ?_⟩
  · simp [rvi_remote_create, h]
  · simp [rvi_remote_create, not_lt.mpr h]

/-- Witness for C10 at concrete inputs. -/
theorem rvi_remote_create_spec_witness :
    rvi_remote_create none 3 = none ∧
    rvi_remote_create (some 2) (-1) = none ∧
    rvi_remote_create (some 2) 3 =
      some { fd := 3, right_to_register := none, right_to_invoke := none,
             buf := none, sbio := 2 } :=
  ⟨(rvi_remote_create_spec 2 (-1)).1 3,
   (rvi_remote_create_spec 2 (-1)).2.1 (by decide),
   (rvi_remote_create_spec 2 3).2.2 (by decide)⟩

end RviLib
